import Mathlib

/-
  Shallow embedding of the intelligent code review bot (src/app.py).

  The program is a Flask application with three routes:
    - GET  /         : renders the HTML form (out of scope here);
    - POST /review   : synchronous manual review (website_review);
    - POST /webhook  : GitHub webhook dispatcher (webhook), which launches
                       process_review in a background thread.

  External effects (GitHub API calls, HTTP content fetches, model calls,
  comment posting, thread spawning, and print logging) are modelled as an
  explicit event trace; the behaviour of the external collaborators is an
  explicit environment of Except-valued functions, where `Except.error e`
  models a Python exception with message `e`.
-/

set_option autoImplicit false
set_option maxRecDepth 8000

namespace CodeReviewBot

/-- The subset of the `pull_request` record the program reads:
`pr[number]` and `pr[base][repo][full_name]`. -/
structure PRData where
  number : Nat
  base_repo_full_name : String
deriving DecidableEq, Repr

/-- A webhook payload as consumed by the program: an `action` tag
(`none` models an absent key) and an optional `pull_request` sub-record
(`none` models an absent or falsy value). A falsy payload itself
(Python `None` or an empty dict) is modelled as `Option.none` at use sites. -/
structure PayloadData where
  action : Option String
  pull_request : Option PRData
deriving DecidableEq, Repr

/-- A changed-file descriptor as used by the loop in `process_review`:
`file.filename` and `file.raw_url`. -/
structure FileData where
  filename : String
  raw_url : String
deriving DecidableEq, Repr

/-- Observable effects of the program, in execution order. `log` models
`print`; the rest model the network calls and the thread launch. -/
inductive Event where
  | log (msg : String)
  | getRepo (full_name : String)
  | getPull (number : Nat)
  | getFiles (full_name : String) (number : Nat)
  | httpGet (url : String)
  | generateContent (promptText : String)
  | createIssueComment (body : String)
  | spawnThread (payload : PayloadData)
deriving DecidableEq, Repr

/-- `true` exactly for the events that are network calls to the hosting
service, the content host, or the model. -/
def isNetworkCall : Event → Bool
  | .getRepo _ => true
  | .getPull _ => true
  | .getFiles _ _ => true
  | .httpGet _ => true
  | .generateContent _ => true
  | .createIssueComment _ => true
  | .log _ => false
  | .spawnThread _ => false

/-- `true` exactly for a posted pull-request comment. -/
def isComment : Event → Bool
  | .createIssueComment _ => true
  | _ => false

/-- `true` exactly for a background-thread launch. -/
def isSpawn : Event → Bool
  | .spawnThread _ => true
  | _ => false

/-- The prompts of the model calls occurring in a trace, in order. -/
def modelPrompts (trace : List Event) : List String :=
  trace.filterMap fun e =>
    match e with
    | .generateContent q => some q
    | _ => none

/-- Behaviour of the external collaborators. `g_is_none` is whether the
GitHub client is `None` (missing `GITHUB_PAT`). Each operation either
returns a value or raises an exception carrying a message string. -/
structure Env where
  g_is_none : Bool
  get_repo : String → Except String Unit
  get_pull : String → Nat → Except String Unit
  get_files : String → Nat → Except String (List FileData)
  http_get : String → Except String (Nat × String)
  generate_content : String → Except String String
  create_issue_comment : String → Except String Unit

/-- The fixed part of the background-review prompt preceding the code
(the f-string in `process_review`, lines 60 to 64 of src/app.py). -/
def bgPromptPre : String :=
  "\n                You are an intelligent code review bot. Analyze the following code focusing on security, efficiency, \n                readability, and potential bugs. Provide a concise, structured review.\n                Code to review: ```"

/-- The fixed part of the background-review prompt following the code. -/
def bgPromptSuf : String := "```\n                "

/-- The prompt built in `process_review` for one file content. -/
def bgPrompt (file_content : String) : String :=
  bgPromptPre ++ file_content ++ bgPromptSuf

/-- The fixed part of the manual-review prompt preceding the code
(the f-string in `website_review`, lines 103 to 106 of src/app.py). -/
def webPromptPre : String :=
  "\n        You are an intelligent code review bot. Provide a structured review for the following code, focusing on quality, efficiency, and common bugs.\n        Code to review: ```"

/-- The fixed part of the manual-review prompt following the code. -/
def webPromptSuf : String := "```\n        "

/-- The prompt built in `website_review` for the pasted code. -/
def webPrompt (pasted_code : String) : String :=
  webPromptPre ++ pasted_code ++ webPromptSuf

/-- The comment body posted for one file (line 73 of src/app.py). -/
def commentBody (filename review_comment : String) : String :=
  "**Code Review for `" ++ filename ++ "`**\n\n" ++ review_comment

/-- The message logged by the outer exception handler of `process_review`
(line 80 of src/app.py). -/
def bgErrorMsg (number : Nat) (e : String) : String :=
  "Background processing error for PR #" ++ toString number ++ ": " ++ e

/-- The file loop of `process_review` (lines 49 to 74 of src/app.py).
Returns the events it emits and, when a call raised, the pending
exception message that escapes to the outer handler. A fetch returning a
non-200 status is logged and skipped with `continue`; a raised exception
aborts the loop. -/
def reviewLoop (env : Env) : List FileData → List Event × Option String
  | [] => ([], none)
  | file :: rest =>
    match env.http_get file.raw_url with
    | .error e => ([.httpGet file.raw_url], some e)
    | .ok (status_code, text) =>
      if status_code ≠ 200 then
        let r := reviewLoop env rest
        (.httpGet file.raw_url ::
         .log ("Skipping file " ++ file.filename ++ ": Could not fetch content.") :: r.1, r.2)
      else
        match env.generate_content (bgPrompt text) with
        | .error e =>
          ([.httpGet file.raw_url, .generateContent (bgPrompt text)], some e)
        | .ok review_comment =>
          match env.create_issue_comment (commentBody file.filename review_comment) with
          | .error e =>
            ([.httpGet file.raw_url, .generateContent (bgPrompt text),
              .createIssueComment (commentBody file.filename review_comment)], some e)
          | .ok _ =>
            let r := reviewLoop env rest
            (.httpGet file.raw_url :: .generateContent (bgPrompt text) ::
             .createIssueComment (commentBody file.filename review_comment) ::
             .log ("Posted review for file: " ++ file.filename) :: r.1, r.2)

/-- `process_review(payload)` (lines 29 to 81 of src/app.py), as the event
trace it emits. The `try` block spans repository resolution and the whole
file loop; `except Exception` logs `bgErrorMsg` and returns, so the
function is total. -/
def process_review (env : Env) (payload : Option PayloadData) : List Event :=
  if env.g_is_none then
    [.log "Error: Cannot process review. GITHUB_PAT is missing."]
  else
    match payload with
    | none => []
    | some p =>
      match p.pull_request with
      | none => []
      | some pr =>
        let repo_name := pr.base_repo_full_name
        match env.get_repo repo_name with
        | .error e => [.getRepo repo_name, .log (bgErrorMsg pr.number e)]
        | .ok _ =>
          match env.get_pull repo_name pr.number with
          | .error e =>
            [.getRepo repo_name, .getPull pr.number, .log (bgErrorMsg pr.number e)]
          | .ok _ =>
            let startEv := Event.log
              ("Starting review for PR #" ++ toString pr.number ++ " in " ++ repo_name)
            match env.get_files repo_name pr.number with
            | .error e =>
              [.getRepo repo_name, .getPull pr.number, startEv,
               .getFiles repo_name pr.number, .log (bgErrorMsg pr.number e)]
            | .ok files =>
              let r := reviewLoop env files
              let base := [Event.getRepo repo_name, Event.getPull pr.number, startEv,
                           Event.getFiles repo_name pr.number] ++ r.1
              match r.2 with
              | some e => base ++ [.log (bgErrorMsg pr.number e)]
              | none =>
                base ++ [.log ("Successfully posted final review for PR #" ++ toString pr.number)]

/-- Outcome of `request.get_json()` in the webhook handler: a parsed
payload (possibly `none`, for a JSON null body) or a raised exception. -/
inductive ParseResult where
  | ok (payload : Option PayloadData)
  | err (e : String)
deriving DecidableEq, Repr

/-- The JSON body and HTTP code returned by the webhook route. -/
structure WebhookResponse where
  status : String
  message : String
  http_code : Nat
deriving DecidableEq, Repr

/-- Whether `payload.get(action)` is in the list
`[opened, reopened, synchronize]`; an absent action is not. -/
def relevantAction : Option String → Bool
  | some a => a == "opened" || a == "reopened" || a == "synchronize"
  | none => false

/-- The `/webhook` handler (lines 121 to 147 of src/app.py): the events the
handler itself performs, and its HTTP response. The background job body is
not part of this trace; `Event.spawnThread` records the `thread.start()`
handoff of the payload. -/
def webhook (parse : ParseResult) : List Event × WebhookResponse :=
  match parse with
  | .err e =>
    ([.log ("Webhook error: Invalid JSON payload - " ++ e)],
     ⟨"error", "Invalid JSON payload", 400⟩)
  | .ok payload =>
    match payload with
    | some p =>
      match p.pull_request with
      | some pr =>
        if relevantAction p.action then
          ([.spawnThread p,
            .log ("Webhook received. Processing PR #" ++ toString pr.number ++ " in background.")],
           ⟨"success", "Processing started in background", 200⟩)
        else ([], ⟨"ignored", "Event not relevant", 200⟩)
      | none => ([], ⟨"ignored", "Event not relevant", 200⟩)
    | none => ([], ⟨"ignored", "Event not relevant", 200⟩)

/-- The JSON body and HTTP code returned by the `/review` route. -/
structure ReviewResponse where
  review : String
  http_code : Nat
deriving DecidableEq, Repr

/-- The `/review` handler (lines 92 to 118 of src/app.py): `code_input` is
the form field (`none` when absent); `generate` is the model call. An
absent or empty field short-circuits; a raised model call is caught and
surfaced in the JSON body with HTTP 200. -/
def website_review (generate : String → Except String String)
    (code_input : Option String) : List Event × ReviewResponse :=
  let pasted_code := code_input.getD ""
  if pasted_code = "" then
    ([], ⟨"Please paste code to review.", 200⟩)
  else
    match generate (webPrompt pasted_code) with
    | .ok review_comment =>
      ([.generateContent (webPrompt pasted_code)], ⟨review_comment, 200⟩)
    | .error e =>
      ([.generateContent (webPrompt pasted_code),
        .log ("Error during manual review: " ++ e)],
       ⟨"An internal error occurred: " ++ e, 200⟩)

/-- A concrete environment in which every external call succeeds. -/
def envOk : Env where
  g_is_none := false
  get_repo := fun _ => .ok ()
  get_pull := fun _ _ => .ok ()
  get_files := fun _ _ => .ok []
  http_get := fun _ => .ok (200, "code")
  generate_content := fun q => .ok ("review of " ++ q)
  create_issue_comment := fun _ => .ok ()

/-- Claim C1: every webhook payload that parses but is absent, lacks a
pull_request sub-record, or whose action is outside
{opened, reopened, synchronize} gets the HTTP 200 response with status
ignored, and the handler trace is empty: no thread is spawned and no
hosting-service or model call occurs. -/
theorem webhook_irrelevant_ignored (payload : Option PayloadData)
    (h : payload = none ∨ ∃ p, payload = some p ∧
      (p.pull_request = none ∨ relevantAction p.action = false)) :
    webhook (.ok payload) = ([], ⟨"ignored", "Event not relevant", 200⟩) := by
  rcases h with rfl | ⟨p, rfl, h⟩
  · rfl
  · rcases h with h | h
    · simp [webhook, h]
    · cases hpr : p.pull_request <;> simp [webhook, hpr, h]

/-- Witness for C1 at a concrete closed payload with an irrelevant action. -/
theorem webhook_irrelevant_ignored_witness :
    webhook (.ok (some ⟨some "closed", some ⟨7, "octo/repo"⟩⟩)) =
      ([], ⟨"ignored", "Event not relevant", 200⟩) :=
  webhook_irrelevant_ignored _ (Or.inr ⟨_, rfl, Or.inr (by decide)⟩)

/-- Claim C5: the webhook handler itself performs no network call to the
model or the hosting service on any input, and for every relevant payload
its trace contains the background-thread launch handed that payload, so
the review job runs detached from the response path. -/
theorem webhook_detaches_job (parse : ParseResult) :
    ((webhook parse).1.filter isNetworkCall = []) ∧
    (∀ p : PayloadData, parse = .ok (some p) → p.pull_request.isSome = true →
      relevantAction p.action = true → Event.spawnThread p ∈ (webhook parse).1) := by
  constructor
  · cases parse with
    | err e => rfl
    | ok payload =>
      cases payload with
      | none => rfl
      | some p =>
        cases hpr : p.pull_request with
        | none => simp [webhook, hpr]
        | some pr =>
          by_cases hra : relevantAction p.action <;>
            simp [webhook, hpr, hra, isNetworkCall]
  · intro p hp hpr hra
    subst hp
    cases hq : p.pull_request with
    | none => rw [hq] at hpr; simp at hpr
    | some pr => simp [webhook, hq, hra]

/-- Witness for C5 at a concrete relevant payload. -/
theorem webhook_detaches_job_witness :
    (webhook (.ok (some ⟨some "opened", some ⟨3, "octo/repo"⟩⟩))).1.filter isNetworkCall = [] ∧
    Event.spawnThread ⟨some "opened", some ⟨3, "octo/repo"⟩⟩ ∈
      (webhook (.ok (some ⟨some "opened", some ⟨3, "octo/repo"⟩⟩))).1 :=
  ⟨(webhook_detaches_job _).1,
   (webhook_detaches_job _).2 _ rfl (by decide) (by decide)⟩

/-- Claim C6: a POST body that fails JSON parsing yields HTTP 400 with an
error-status JSON body, the parse failure is caught and logged (the
handler still returns a response), and no background thread is spawned. -/
theorem webhook_malformed_json (e : String) :
    webhook (.err e) =
      ([Event.log ("Webhook error: Invalid JSON payload - " ++ e)],
       ⟨"error", "Invalid JSON payload", 400⟩) ∧
    (webhook (.err e)).1.filter isSpawn = [] :=
  ⟨rfl, rfl⟩

/-- Claim C7: a POST to /review with the code_input field absent or empty
returns the fixed prompt message with HTTP 200, and the trace is empty, so
no model call is made. -/
theorem website_review_empty_input (generate : String → Except String String)
    (ci : Option String) (h : ci = none ∨ ci = some "") :
    website_review generate ci = ([], ⟨"Please paste code to review.", 200⟩) := by
  rcases h with rfl | rfl <;> rfl

/-- Witness for C7 with an absent form field. -/
theorem website_review_empty_input_witness :
    website_review (fun _ => .error "down") none =
      ([], ⟨"Please paste code to review.", 200⟩) :=
  website_review_empty_input _ none (Or.inl rfl)

/-- Claim C8: a POST to /review with non-empty code where the model call
raises with message m returns the JSON body whose review field is the
internal-error message carrying m, with HTTP 200; the failure is logged
and surfaced only in the payload, never as an HTTP failure code. -/
theorem website_review_model_failure (generate : String → Except String String)
    (code m : String) (hc : code ≠ "")
    (hm : generate (webPrompt code) = .error m) :
    website_review generate (some code) =
      ([Event.generateContent (webPrompt code),
        Event.log ("Error during manual review: " ++ m)],
       ⟨"An internal error occurred: " ++ m, 200⟩) := by
  simp [website_review, hc, hm]

/-- Witness for C8 at a concrete code text and model failure. -/
theorem website_review_model_failure_witness :
    website_review (fun _ => .error "quota") (some "x") =
      ([Event.generateContent (webPrompt "x"),
        Event.log "Error during manual review: quota"],
       ⟨"An internal error occurred: quota", 200⟩) :=
  website_review_model_failure _ "x" "quota" (by decide) rfl

/-- Claim C10: process_review re-checks the dispatcher precondition: on an
absent payload or one whose pull_request field is absent it performs no
hosting-service, fetch or model call and returns normally, emitting at
most the missing-credential log line. -/
theorem process_review_noop_on_invalid_payload (env : Env) (payload : Option PayloadData)
    (h : payload = none ∨ ∃ p, payload = some p ∧ p.pull_request = none) :
    process_review env payload =
      (if env.g_is_none then
        [Event.log "Error: Cannot process review. GITHUB_PAT is missing."]
      else ([] : List Event)) ∧
    (process_review env payload).filter isNetworkCall = [] := by
  have hmain : process_review env payload =
      (if env.g_is_none then
        [Event.log "Error: Cannot process review. GITHUB_PAT is missing."]
      else ([] : List Event)) := by
    rcases h with rfl | ⟨p, rfl, hp⟩
    · cases hg : env.g_is_none <;> simp [process_review, hg]
    · cases hg : env.g_is_none <;> simp [process_review, hg, hp]
  refine ⟨hmain, ?_⟩
  rw [hmain]
  cases env.g_is_none <;> simp [isNetworkCall]

/-- Witness for C10 at a concrete payload lacking pull_request. -/
theorem process_review_noop_on_invalid_payload_witness :
    process_review envOk (some ⟨some "opened", none⟩) =
      (if envOk.g_is_none then
        [Event.log "Error: Cannot process review. GITHUB_PAT is missing."]
      else ([] : List Event)) ∧
    (process_review envOk (some ⟨some "opened", none⟩)).filter isNetworkCall = [] :=
  process_review_noop_on_invalid_payload envOk _ (Or.inr ⟨_, rfl, rfl⟩)

/-- A concrete environment in which repository resolution raises. -/
def envRepoFail : Env where
  g_is_none := false
  get_repo := fun _ => .error "404 Not Found"
  get_pull := fun _ _ => .ok ()
  get_files := fun _ _ => .ok []
  http_get := fun _ => .ok (200, "code")
  generate_content := fun q => .ok ("review of " ++ q)
  create_issue_comment := fun _ => .ok ()

/-- Claim C4: when resolving the repository or the pull request raises, the
job aborts before any file fetch, model call or comment: the trace is just
the failed resolution calls followed by the log line carrying the
pull-request number, and the job returns normally without propagating. -/
theorem process_review_resolution_failure (env : Env) (a : Option String)
    (pr : PRData) (e : String) (hg : env.g_is_none = false) :
    (env.get_repo pr.base_repo_full_name = .error e →
      process_review env (some ⟨a, some pr⟩) =
        [Event.getRepo pr.base_repo_full_name, Event.log (bgErrorMsg pr.number e)]) ∧
    (env.get_repo pr.base_repo_full_name = .ok () →
      env.get_pull pr.base_repo_full_name pr.number = .error e →
      process_review env (some ⟨a, some pr⟩) =
        [Event.getRepo pr.base_repo_full_name, Event.getPull pr.number,
         Event.log (bgErrorMsg pr.number e)]) := by
  constructor
  · intro hrepo
    simp [process_review, hg, hrepo]
  · intro hrepo hpull
    simp [process_review, hg, hrepo, hpull]

/-- Witness for C4 at a concrete environment whose repository lookup raises. -/
theorem process_review_resolution_failure_witness :
    process_review envRepoFail (some ⟨some "opened", some ⟨3, "octo/repo"⟩⟩) =
      [Event.getRepo "octo/repo", Event.log (bgErrorMsg 3 "404 Not Found")] :=
  (process_review_resolution_failure envRepoFail (some "opened") ⟨3, "octo/repo"⟩
    "404 Not Found" rfl).1 rfl

/-- A concrete environment with two changed files in which every model call
raises with message boom. -/
def envGenFail : Env where
  g_is_none := false
  get_repo := fun _ => .ok ()
  get_pull := fun _ _ => .ok ()
  get_files := fun _ _ => .ok [⟨"a.py", "u1"⟩, ⟨"b.py", "u2"⟩]
  http_get := fun _ => .ok (200, "code")
  generate_content := fun _ => .error "boom"
  create_issue_comment := fun _ => .ok ()

/-- The concrete payload used by the counterexamples and witnesses below. -/
def payloadPR : Option PayloadData := some ⟨some "opened", some ⟨5, "octo/repo"⟩⟩

/-- Counterexample to claim C2 as stated: with two changed files, when the
model call for the first file raises, the exception is caught by the
job-level handler, which logs the error message carrying the pull-request
number and stops the whole loop: the second file is never fetched and no
per-file skip message for the first file is emitted, so a failure in one
file review does abort the review of the remaining files. -/
theorem process_review_file_exception_counterexample :
    process_review envGenFail payloadPR =
      [Event.getRepo "octo/repo", Event.getPull 5,
       Event.log "Starting review for PR #5 in octo/repo",
       Event.getFiles "octo/repo" 5, Event.httpGet "u1",
       Event.generateContent (bgPrompt "code"),
       Event.log (bgErrorMsg 5 "boom")] ∧
    Event.httpGet "u2" ∉ process_review envGenFail payloadPR ∧
    Event.log "Skipping file a.py: Could not fetch content."
      ∉ process_review envGenFail payloadPR := by
  refine ⟨rfl, ?_, ?_⟩ <;> decide

/-- Outcome of one file inside the loop when that file does not raise:
either fully posted, or fetched with a non-success status and skipped. -/
inductive FileOutcome where
  | posted (t r : String)
  | skipped (st : Nat) (t : String)
deriving DecidableEq, Repr

/-- The environment facts making the given outcome be what the loop does
for file f: a posted outcome needs a 200 fetch, a successful model call
and a successful comment post; a skipped outcome needs a fetch completing
with a non-success status. -/
def outcomeOk (env : Env) (f : FileData) : FileOutcome → Prop
  | .posted t r =>
      env.http_get f.raw_url = .ok (200, t) ∧
      env.generate_content (bgPrompt t) = .ok r ∧
      env.create_issue_comment (commentBody f.filename r) = .ok ()
  | .skipped st t => env.http_get f.raw_url = .ok (st, t) ∧ st ≠ 200

/-- The events the loop emits for one file with the given outcome. -/
def fileEvents (f : FileData) : FileOutcome → List Event
  | .posted t r =>
      [.httpGet f.raw_url, .generateContent (bgPrompt t),
       .createIssueComment (commentBody f.filename r),
       .log ("Posted review for file: " ++ f.filename)]
  | .skipped _ _ =>
      [.httpGet f.raw_url,
       .log ("Skipping file " ++ f.filename ++ ": Could not fetch content.")]

/-- The events the loop emits for a run of files none of which raises. -/
def processedEvents (outcome : FileData → FileOutcome) : List FileData → List Event
  | [] => []
  | f :: l => fileEvents f (outcome f) ++ processedEvents outcome l

/-- The events of the job before the file loop starts: resolution of the
repository and the pull request, the starting log, the file enumeration. -/
def jobBase (pr : PRData) : List Event :=
  [Event.getRepo pr.base_repo_full_name, Event.getPull pr.number,
   Event.log ("Starting review for PR #" ++ toString pr.number ++ " in " ++
     pr.base_repo_full_name),
   Event.getFiles pr.base_repo_full_name pr.number]

/-- The file loop walks past any run of files that do not raise, emitting
their events, and then behaves like the loop on the remaining files. -/
theorem reviewLoop_processed_head (env : Env) (outcome : FileData → FileOutcome)
    (l1 rest : List FileData)
    (hpre : ∀ f ∈ l1, outcomeOk env f (outcome f)) :
    reviewLoop env (l1 ++ rest) =
      (processedEvents outcome l1 ++ (reviewLoop env rest).1,
       (reviewLoop env rest).2) := by
  induction l1 with
  | nil => simp [processedEvents]
  | cons f l ih =>
    have hf := hpre f (by simp)
    have ihl := ih (fun f2 hf2 => hpre f2 (by simp [hf2]))
    cases ho : outcome f with
    | posted t r =>
      rw [ho] at hf
      obtain ⟨h1, h2, h3⟩ := hf
      simp [reviewLoop, h1, h2, h3, processedEvents, fileEvents, ho, ihl]
    | skipped st t =>
      rw [ho] at hf
      obtain ⟨h1, h2⟩ := hf
      simp [reviewLoop, h1, h2, processedEvents, fileEvents, ho, ihl]

/-- When the file loop ends with a pending exception, the job logs the
line carrying the pull-request number right after the loop events and
returns. -/
theorem process_review_loop_error (env : Env) (a : Option String) (pr : PRData)
    (files : List FileData) (evs : List Event) (e : String)
    (hg : env.g_is_none = false)
    (hrepo : env.get_repo pr.base_repo_full_name = .ok ())
    (hpull : env.get_pull pr.base_repo_full_name pr.number = .ok ())
    (hfiles : env.get_files pr.base_repo_full_name pr.number = .ok files)
    (hloop : reviewLoop env files = (evs, some e)) :
    process_review env (some ⟨a, some pr⟩) =
      jobBase pr ++ evs ++ [Event.log (bgErrorMsg pr.number e)] := by
  simp [process_review, jobBase, hg, hrepo, hpull, hfiles, hloop]

/-- Claim C2 amended: an exception raised while processing one file, in
any of its three steps (content fetch, review generation, or comment
posting) and at any position in the file list after files that were
posted or skipped without raising, is caught by the job-level handler and
logged with the pull-request number, and it aborts the review of the
remaining sibling files; only a content fetch that completes with a
non-success status is logged with the filename, skipped, and followed by
the next file. -/
theorem process_review_file_exception_aborts (env : Env) (a : Option String)
    (pr : PRData) (outcome : FileData → FileOutcome)
    (l1 l2 : List FileData) (fk : FileData) (e : String)
    (hg : env.g_is_none = false)
    (hrepo : env.get_repo pr.base_repo_full_name = .ok ())
    (hpull : env.get_pull pr.base_repo_full_name pr.number = .ok ())
    (hfiles : env.get_files pr.base_repo_full_name pr.number = .ok (l1 ++ fk :: l2))
    (hpre : ∀ f ∈ l1, outcomeOk env f (outcome f)) :
    (env.http_get fk.raw_url = .error e →
      process_review env (some ⟨a, some pr⟩) =
        jobBase pr ++ processedEvents outcome l1 ++
        [Event.httpGet fk.raw_url, Event.log (bgErrorMsg pr.number e)]) ∧
    (∀ tk, env.http_get fk.raw_url = .ok (200, tk) →
      env.generate_content (bgPrompt tk) = .error e →
      process_review env (some ⟨a, some pr⟩) =
        jobBase pr ++ processedEvents outcome l1 ++
        [Event.httpGet fk.raw_url, Event.generateContent (bgPrompt tk),
         Event.log (bgErrorMsg pr.number e)]) ∧
    (∀ tk rk, env.http_get fk.raw_url = .ok (200, tk) →
      env.generate_content (bgPrompt tk) = .ok rk →
      env.create_issue_comment (commentBody fk.filename rk) = .error e →
      process_review env (some ⟨a, some pr⟩) =
        jobBase pr ++ processedEvents outcome l1 ++
        [Event.httpGet fk.raw_url, Event.generateContent (bgPrompt tk),
         Event.createIssueComment (commentBody fk.filename rk),
         Event.log (bgErrorMsg pr.number e)]) ∧
    (∀ st tk, env.http_get fk.raw_url = .ok (st, tk) → st ≠ 200 →
      reviewLoop env (l1 ++ fk :: l2) =
        (processedEvents outcome l1 ++ Event.httpGet fk.raw_url ::
         Event.log ("Skipping file " ++ fk.filename ++ ": Could not fetch content.") ::
         (reviewLoop env l2).1,
         (reviewLoop env l2).2)) := by
  have hhead := reviewLoop_processed_head env outcome l1 (fk :: l2) hpre
  refine ⟨?_, ?_, ?_, ?_⟩
  · intro hk
    have hloop : reviewLoop env (l1 ++ fk :: l2) =
        (processedEvents outcome l1 ++ [Event.httpGet fk.raw_url], some e) := by
      rw [hhead]
      simp [reviewLoop, hk]
    rw [process_review_loop_error env a pr _ _ e hg hrepo hpull hfiles hloop]
    simp
  · intro tk hk hgen
    have hloop : reviewLoop env (l1 ++ fk :: l2) =
        (processedEvents outcome l1 ++
         [Event.httpGet fk.raw_url, Event.generateContent (bgPrompt tk)], some e) := by
      rw [hhead]
      simp [reviewLoop, hk, hgen]
    rw [process_review_loop_error env a pr _ _ e hg hrepo hpull hfiles hloop]
    simp
  · intro tk rk hk hgen hpost
    have hloop : reviewLoop env (l1 ++ fk :: l2) =
        (processedEvents outcome l1 ++
         [Event.httpGet fk.raw_url, Event.generateContent (bgPrompt tk),
          Event.createIssueComment (commentBody fk.filename rk)], some e) := by
      rw [hhead]
      simp [reviewLoop, hk, hgen, hpost]
    rw [process_review_loop_error env a pr _ _ e hg hrepo hpull hfiles hloop]
    simp
  · intro st tk hk hst
    rw [hhead]
    simp [reviewLoop, hk, hst]

/-- A concrete environment with three changed files in which the first
file posts successfully and the fetch of the second raises. -/
def envFetchRaise : Env where
  g_is_none := false
  get_repo := fun _ => .ok ()
  get_pull := fun _ _ => .ok ()
  get_files := fun _ _ => .ok [⟨"a.py", "u1"⟩, ⟨"b.py", "u2"⟩, ⟨"c.py", "u3"⟩]
  http_get := fun url => if url = "u2" then .error "timeout" else .ok (200, "code")
  generate_content := fun _ => .ok "review"
  create_issue_comment := fun _ => .ok ()

/-- Witness for the amended C2: the fetch of the second of three files
raises; the first file is fully reviewed, the exception is logged with
the pull-request number, and the third file is never touched. -/
theorem process_review_file_exception_aborts_witness :
    process_review envFetchRaise payloadPR =
      jobBase ⟨5, "octo/repo"⟩ ++
      processedEvents (fun _ => FileOutcome.posted "code" "review") [⟨"a.py", "u1"⟩] ++
      [Event.httpGet "u2", Event.log (bgErrorMsg 5 "timeout")] :=
  (process_review_file_exception_aborts envFetchRaise (some "opened") ⟨5, "octo/repo"⟩
    (fun _ => FileOutcome.posted "code" "review")
    [⟨"a.py", "u1"⟩] [⟨"c.py", "u3"⟩] ⟨"b.py", "u2"⟩ "timeout"
    rfl rfl rfl rfl
    (fun f hf => by
      obtain rfl := List.mem_singleton.mp hf
      exact ⟨rfl, rfl, rfl⟩)).1 rfl

/-- Behaviour of the file loop when no external call raises: the loop
finishes with no pending exception, posts exactly one comment per file
whose fetch status is 200, and logs a skip line for every file whose
fetch status is not 200. -/
theorem reviewLoop_ok_statuses (env : Env) (stf : String → Nat) (txf : String → String)
    (genf : String → String)
    (hhttp : ∀ url, env.http_get url = .ok (stf url, txf url))
    (hgen : ∀ q, env.generate_content q = .ok (genf q))
    (hpost : ∀ b, env.create_issue_comment b = .ok ())
    (files : List FileData) :
    (reviewLoop env files).2 = none ∧
    (reviewLoop env files).1.countP isComment =
      files.countP (fun f => decide (stf f.raw_url = 200)) ∧
    ∀ f ∈ files, stf f.raw_url ≠ 200 →
      Event.log ("Skipping file " ++ f.filename ++ ": Could not fetch content.")
        ∈ (reviewLoop env files).1 := by
  induction files with
  | nil => simp [reviewLoop]
  | cons f rest ih =>
    obtain ⟨ih1, ih2, ih3⟩ := ih
    by_cases hst : stf f.raw_url = 200
    · have hr : reviewLoop env (f :: rest) =
        (Event.httpGet f.raw_url :: Event.generateContent (bgPrompt (txf f.raw_url)) ::
         Event.createIssueComment
           (commentBody f.filename (genf (bgPrompt (txf f.raw_url)))) ::
         Event.log ("Posted review for file: " ++ f.filename) :: (reviewLoop env rest).1,
         (reviewLoop env rest).2) := by
        simp [reviewLoop, hhttp, hgen, hpost, hst]
      refine ⟨by rw [hr]; exact ih1, ?_, ?_⟩
      · rw [hr]
        simp [List.countP_cons, isComment, ih2, hst]
      · intro f2 hf2 hf2st
        rcases List.mem_cons.mp hf2 with rfl | hf2
        · exact absurd hst hf2st
        · rw [hr]
          simp [ih3 f2 hf2 hf2st]
    · have hr : reviewLoop env (f :: rest) =
        (Event.httpGet f.raw_url ::
         Event.log ("Skipping file " ++ f.filename ++ ": Could not fetch content.") ::
         (reviewLoop env rest).1,
         (reviewLoop env rest).2) := by
        simp [reviewLoop, hhttp, hst]
      refine ⟨by rw [hr]; exact ih1, ?_, ?_⟩
      · rw [hr]
        simp [List.countP_cons, isComment, ih2, hst]
      · intro f2 hf2 hf2st
        rcases List.mem_cons.mp hf2 with rfl | hf2
        · rw [hr]; simp
        · rw [hr]
          simp [ih3 f2 hf2 hf2st]

/-- Claim C3: in a job over the changed files l1 ++ fk :: l2 in which only
the fetch for fk returns a non-success status and every other external
call succeeds, exactly N - 1 comments are posted where N is the number of
changed files, the failure for fk is logged as a skip line, and the job
runs to its final success log, so the failure is logged and not raised. -/
theorem process_review_one_fetch_failure (env : Env) (a : Option String) (pr : PRData)
    (stf : String → Nat) (txf : String → String) (genf : String → String)
    (l1 l2 : List FileData) (fk : FileData)
    (hg : env.g_is_none = false)
    (hrepo : env.get_repo pr.base_repo_full_name = .ok ())
    (hpull : env.get_pull pr.base_repo_full_name pr.number = .ok ())
    (hfiles : env.get_files pr.base_repo_full_name pr.number = .ok (l1 ++ fk :: l2))
    (hhttp : ∀ url, env.http_get url = .ok (stf url, txf url))
    (hgen : ∀ q, env.generate_content q = .ok (genf q))
    (hpost : ∀ b, env.create_issue_comment b = .ok ())
    (hok1 : ∀ f ∈ l1, stf f.raw_url = 200)
    (hok2 : ∀ f ∈ l2, stf f.raw_url = 200)
    (hk : stf fk.raw_url ≠ 200) :
    (process_review env (some ⟨a, some pr⟩)).countP isComment =
      (l1 ++ fk :: l2).length - 1 ∧
    Event.log ("Skipping file " ++ fk.filename ++ ": Could not fetch content.")
      ∈ process_review env (some ⟨a, some pr⟩) ∧
    Event.log ("Successfully posted final review for PR #" ++ toString pr.number)
      ∈ process_review env (some ⟨a, some pr⟩) := by
  obtain ⟨h1, h2, h3⟩ :=
    reviewLoop_ok_statuses env stf txf genf hhttp hgen hpost (l1 ++ fk :: l2)
  have hpr : process_review env (some ⟨a, some pr⟩) =
      [Event.getRepo pr.base_repo_full_name, Event.getPull pr.number,
       Event.log ("Starting review for PR #" ++ toString pr.number ++ " in " ++
         pr.base_repo_full_name),
       Event.getFiles pr.base_repo_full_name pr.number] ++
      (reviewLoop env (l1 ++ fk :: l2)).1 ++
      [Event.log ("Successfully posted final review for PR #" ++ toString pr.number)] := by
    simp [process_review, hg, hrepo, hpull, hfiles, h1]
  have hcount : (l1 ++ fk :: l2).countP (fun f => decide (stf f.raw_url = 200)) =
      l1.length + l2.length := by
    rw [List.countP_append, List.countP_cons]
    have e1 : l1.countP (fun f => decide (stf f.raw_url = 200)) = l1.length :=
      List.countP_eq_length.mpr (by intro f hf; simpa using hok1 f hf)
    have e2 : l2.countP (fun f => decide (stf f.raw_url = 200)) = l2.length :=
      List.countP_eq_length.mpr (by intro f hf; simpa using hok2 f hf)
    simp [e1, e2, hk]
  refine ⟨?_, ?_, ?_⟩
  · rw [hpr]
    simp [List.countP_append, List.countP_cons, isComment, h2, hcount,
      List.length_append]
  · rw [hpr]
    exact List.mem_append_left _
      (List.mem_append_right _ (h3 fk (by simp) hk))
  · rw [hpr]
    exact List.mem_append_right _ (by simp)

/-- Fetch statuses for the concrete three-file witness environment: only
the second file URL fails, with a 404. -/
def stf2 : String → Nat := fun url => if url = "u2" then 404 else 200

/-- A concrete environment with three changed files in which the fetch of
the second file returns status 404 and every other call succeeds. -/
def envOneFail : Env where
  g_is_none := false
  get_repo := fun _ => .ok ()
  get_pull := fun _ _ => .ok ()
  get_files := fun _ _ => .ok [⟨"a.py", "u1"⟩, ⟨"b.py", "u2"⟩, ⟨"c.py", "u3"⟩]
  http_get := fun url => .ok (stf2 url, "code")
  generate_content := fun _ => .ok "review"
  create_issue_comment := fun _ => .ok ()

/-- Witness for C3: three changed files, the second fetch fails, exactly
two comments are posted and both log lines appear. -/
theorem process_review_one_fetch_failure_witness :
    (process_review envOneFail (some ⟨some "opened", some ⟨5, "octo/repo"⟩⟩)).countP
      isComment = 2 ∧
    Event.log "Skipping file b.py: Could not fetch content."
      ∈ process_review envOneFail (some ⟨some "opened", some ⟨5, "octo/repo"⟩⟩) ∧
    Event.log "Successfully posted final review for PR #5"
      ∈ process_review envOneFail (some ⟨some "opened", some ⟨5, "octo/repo"⟩⟩) :=
  process_review_one_fetch_failure envOneFail (some "opened") ⟨5, "octo/repo"⟩
    stf2 (fun _ => "code") (fun _ => "review")
    [⟨"a.py", "u1"⟩] [⟨"c.py", "u3"⟩] ⟨"b.py", "u2"⟩
    rfl rfl rfl rfl (fun _ => rfl) (fun _ => rfl) (fun _ => rfl)
    (by decide) (by decide) (by decide)

/-- Every model call made by the file loop carries a prompt that is the
background template wrapped around some fetched file content. -/
theorem reviewLoop_prompts (env : Env) (files : List FileData) :
    ∀ q ∈ modelPrompts (reviewLoop env files).1, ∃ t, q = bgPrompt t := by
  induction files with
  | nil => simp [reviewLoop, modelPrompts]
  | cons f rest ih =>
    cases hh : env.http_get f.raw_url with
    | error e => simp [reviewLoop, hh, modelPrompts]
    | ok p =>
      obtain ⟨st, t⟩ := p
      by_cases hst : st = 200
      · subst hst
        cases hgc : env.generate_content (bgPrompt t) with
        | error e =>
          simp [reviewLoop, hh, hgc, modelPrompts]
        | ok rc =>
          cases hcc : env.create_issue_comment (commentBody f.filename rc) with
          | error e =>
            simp [reviewLoop, hh, hgc, hcc, modelPrompts]
          | ok u =>
            intro q hq
            rw [show reviewLoop env (f :: rest) =
              (Event.httpGet f.raw_url :: Event.generateContent (bgPrompt t) ::
               Event.createIssueComment (commentBody f.filename rc) ::
               Event.log ("Posted review for file: " ++ f.filename) ::
               (reviewLoop env rest).1, (reviewLoop env rest).2) from by
                simp [reviewLoop, hh, hgc, hcc]] at hq
            simp [modelPrompts] at hq
            rcases hq with rfl | hq
            · exact ⟨t, rfl⟩
            · exact ih q (by simpa [modelPrompts] using hq)
      · intro q hq
        rw [show reviewLoop env (f :: rest) =
          (Event.httpGet f.raw_url ::
           Event.log ("Skipping file " ++ f.filename ++ ": Could not fetch content.") ::
           (reviewLoop env rest).1, (reviewLoop env rest).2) from by
            simp [reviewLoop, hh, hst]] at hq
        simp [modelPrompts] at hq
        exact ih q (by simpa [modelPrompts] using hq)

/-- Every model call made by the background job carries a prompt that is
the background template wrapped around some fetched file content. -/
theorem process_review_prompts (env : Env) (payload : Option PayloadData) :
    ∀ q ∈ modelPrompts (process_review env payload), ∃ t, q = bgPrompt t := by
  cases hg : env.g_is_none with
  | true => simp [process_review, hg, modelPrompts]
  | false =>
    cases payload with
    | none => simp [process_review, hg, modelPrompts]
    | some p =>
      cases hq : p.pull_request with
      | none => simp [process_review, hg, hq, modelPrompts]
      | some pr =>
        cases hr : env.get_repo pr.base_repo_full_name with
        | error e => simp [process_review, hg, hq, hr, modelPrompts]
        | ok u =>
          cases hp : env.get_pull pr.base_repo_full_name pr.number with
          | error e => simp [process_review, hg, hq, hr, hp, modelPrompts]
          | ok v =>
            cases hf : env.get_files pr.base_repo_full_name pr.number with
            | error e => simp [process_review, hg, hq, hr, hp, hf, modelPrompts]
            | ok files =>
              intro q hqm
              have hloop := reviewLoop_prompts env files
              cases hx : (reviewLoop env files).2 with
              | some e =>
                rw [show process_review env (some p) =
                  [Event.getRepo pr.base_repo_full_name, Event.getPull pr.number,
                   Event.log ("Starting review for PR #" ++ toString pr.number ++ " in " ++
                     pr.base_repo_full_name),
                   Event.getFiles pr.base_repo_full_name pr.number] ++
                  (reviewLoop env files).1 ++ [Event.log (bgErrorMsg pr.number e)] from by
                    simp [process_review, hg, hq, hr, hp, hf, hx]] at hqm
                simp [modelPrompts] at hqm
                exact hloop q (by simpa [modelPrompts] using hqm)
              | none =>
                rw [show process_review env (some p) =
                  [Event.getRepo pr.base_repo_full_name, Event.getPull pr.number,
                   Event.log ("Starting review for PR #" ++ toString pr.number ++ " in " ++
                     pr.base_repo_full_name),
                   Event.getFiles pr.base_repo_full_name pr.number] ++
                  (reviewLoop env files).1 ++
                  [Event.log ("Successfully posted final review for PR #" ++
                    toString pr.number)] from by
                    simp [process_review, hg, hq, hr, hp, hf, hx]] at hqm
                simp [modelPrompts] at hqm
                exact hloop q (by simpa [modelPrompts] using hqm)

/-- Counterexample to claim C9 as stated: the two paths do not use the
same fixed instructional framing; on the same submitted code the two
prompts differ, and the manual prompt mentions neither security nor
readability. -/
theorem prompts_not_same_counterexample :
    bgPrompt "x" ≠ webPrompt "x" ∧
    ("security".data <:+: (bgPrompt "x").data) ∧
    ¬ ("security".data <:+: (webPrompt "x").data) ∧
    ¬ ("readability".data <:+: (webPrompt "x").data) := by
  refine ⟨by decide, by decide, by decide, by decide⟩

/-- Claim C9 amended: both entry points send the model a prompt that is a
fixed constant template with the submitted code injected as the only
user-controlled part, but the two templates are distinct constants: the
background template directs the review at security, efficiency,
readability and potential bugs, while the manual template directs it at
quality, efficiency and common bugs and mentions neither security nor
readability. -/
theorem prompts_fixed_templates :
    (∀ (gen : String → Except String String) (c : String), c ≠ "" →
      modelPrompts (website_review gen (some c)).1 = [webPrompt c]) ∧
    (∀ (env : Env) (payload : Option PayloadData),
      ∀ q ∈ modelPrompts (process_review env payload), ∃ t, q = bgPrompt t) ∧
    (∀ c, bgPrompt c = bgPromptPre ++ c ++ bgPromptSuf) ∧
    (∀ c, webPrompt c = webPromptPre ++ c ++ webPromptSuf) ∧
    (("security".data <:+: bgPromptPre.data) ∧
     ("readability".data <:+: bgPromptPre.data) ∧
     ("efficiency".data <:+: bgPromptPre.data) ∧
     ("bugs".data <:+: bgPromptPre.data)) ∧
    (("quality".data <:+: webPromptPre.data) ∧
     ("efficiency".data <:+: webPromptPre.data) ∧
     ("bugs".data <:+: webPromptPre.data) ∧
     ¬ ("security".data <:+: webPromptPre.data) ∧
     ¬ ("readability".data <:+: webPromptPre.data)) := by
  refine ⟨?_, process_review_prompts, fun c => rfl, fun c => rfl, by decide, by decide⟩
  intro gen c hc
  cases hgc : gen (webPrompt c) with
  | ok rc => simp [website_review, hc, hgc, modelPrompts]
  | error e => simp [website_review, hc, hgc, modelPrompts]

/-- Witness for the amended C9 at a concrete code text. -/
theorem prompts_fixed_templates_witness :
    modelPrompts (website_review (fun _ => Except.ok "r") (some "x")).1 = [webPrompt "x"] :=
  prompts_fixed_templates.1 (fun _ => Except.ok "r") "x" (by decide)

end CodeReviewBot
